import Mathlib

/-!
Shallow embedding of the SkylarkDrone assignment coordinator
(`lib/conflicts.py`, `lib/sheets.py`, `lib/tools.py`).

Modelling conventions:
- pandas DataFrames become Lean lists of records; row lookup
  `df[df[key] == id]` becomes `List.filter`, `.empty` becomes `.isEmpty`,
  and `.iloc[0]` becomes `.head?`.
- Statuses, conflict kinds, severities and the "no assignment" sentinel
  (the en-dash token) stay the exact strings the source compares.
- `datetime` values are modelled at day granularity as integers; a drone's
  `maintenance_due` field is `Option Int`: `some d` when
  `pd.to_datetime` would succeed with absolute day number `d`, `none`
  when the field is missing or unparseable (the source swallows the
  parse exception).  `datetime.now()` becomes an explicit `now : Int`
  argument threaded through the checks.
- Python truthiness of an optional-string argument (`if pilot_id:`) is
  `truthy`: present and non-empty.
- The Google Sheet plus the Streamlit caches become explicit state
  records passed through the write operations.
-/

structure Finding where
  type : String
  severity : String
  message : String
deriving DecidableEq, Repr

structure Pilot where
  pilot_id : String
  name : String
  skills : List String
  certifications : List String
  location : String
  status : String
  current_assignment : String
  available_from : String
deriving DecidableEq, Repr

structure Drone where
  drone_id : String
  model : String
  capabilities : List String
  status : String
  location : String
  current_assignment : String
  maintenance_due : Option Int
deriving DecidableEq, Repr

structure Mission where
  project_id : String
  location : String
  required_skills : List String
  required_certs : List String
  priority : String
  client : String
deriving DecidableEq, Repr

namespace Conflicts

/-- Embeds `check_pilot_conflicts` from `lib/conflicts.py` (lines 42-82).
The unused `missions_df` parameter of the source is kept. -/
def check_pilot_conflicts (pilot_id : String) (pilots_df : List Pilot)
    (missions_df : Option (List Mission)) : List Finding :=
  match (pilots_df.filter (fun p => p.pilot_id == pilot_id)).head? with
  | none =>
      [⟨"NOT_FOUND", "CRITICAL", "Pilot " ++ pilot_id ++ " not found in roster"⟩]
  | some pilot =>
      (if pilot.status == "Assigned" && pilot.current_assignment != "–" then
        [⟨"DOUBLE_BOOKING", "CRITICAL",
          "Pilot " ++ pilot_id ++ " (" ++ pilot.name ++ ") already assigned to "
            ++ pilot.current_assignment⟩]
      else []) ++
      (if pilot.status == "On Leave" then
        [⟨"UNAVAILABLE", "CRITICAL",
          "Pilot " ++ pilot_id ++ " is on leave until " ++ pilot.available_from⟩]
      else [])

/-- Embeds `check_skill_mismatch` from `lib/conflicts.py` (lines 85-131).
Set differences over parsed skill lists become list filters. -/
def check_skill_mismatch (pilot_id project_id : String)
    (pilots_df : List Pilot) (missions_df : List Mission) : List Finding :=
  match (pilots_df.filter (fun p => p.pilot_id == pilot_id)).head?,
        (missions_df.filter (fun m => m.project_id == project_id)).head? with
  | some pilot, some mission =>
      let missing_skills :=
        mission.required_skills.filter (fun s => !(pilot.skills.contains s))
      let missing_certs :=
        mission.required_certs.filter (fun s => !(pilot.certifications.contains s))
      (if missing_skills.isEmpty then []
       else [⟨"SKILL_MISMATCH", "HIGH",
          "Pilot " ++ pilot_id ++ " lacks required skills: "
            ++ String.intercalate ", " missing_skills⟩]) ++
      (if missing_certs.isEmpty then []
       else [⟨"CERTIFICATION_MISMATCH", "CRITICAL",
          "Pilot " ++ pilot_id ++ " lacks required certifications: "
            ++ String.intercalate ", " missing_certs⟩])
  | _, _ => []

/-- Embeds `check_drone_conflicts` from `lib/conflicts.py` (lines 134-188).
The `try/except` around `pd.to_datetime(drone.maintenance_due)` is the
`Option` match: `none` is the swallowed-exception path. -/
def check_drone_conflicts (drone_id : String) (drones_df : List Drone)
    (now : Int) : List Finding :=
  match (drones_df.filter (fun d => d.drone_id == drone_id)).head? with
  | none =>
      [⟨"NOT_FOUND", "CRITICAL", "Drone " ++ drone_id ++ " not found in fleet"⟩]
  | some drone =>
      (if drone.status == "Maintenance" then
        [⟨"MAINTENANCE_CONFLICT", "CRITICAL",
          "Drone " ++ drone_id ++ " is currently in maintenance"⟩]
      else []) ++
      (match drone.maintenance_due with
       | none => []
       | some due =>
          if 0 ≤ due - now ∧ due - now ≤ 7 then
            [⟨"MAINTENANCE_DUE", "WARNING",
              "Drone " ++ drone_id ++ " maintenance due on day " ++ toString due
                ++ " (" ++ toString (due - now) ++ " days)"⟩]
          else []) ++
      (if drone.status == "Assigned" && drone.current_assignment != "–" then
        [⟨"DOUBLE_BOOKING", "CRITICAL",
          "Drone " ++ drone_id ++ " already assigned to "
            ++ drone.current_assignment⟩]
      else [])

/-- Embeds `check_location_mismatch` from `lib/conflicts.py` (lines 191-236). -/
def check_location_mismatch (pilot_id drone_id project_id : String)
    (pilots_df : List Pilot) (drones_df : List Drone)
    (missions_df : List Mission) : List Finding :=
  match (pilots_df.filter (fun p => p.pilot_id == pilot_id)).head?,
        (drones_df.filter (fun d => d.drone_id == drone_id)).head?,
        (missions_df.filter (fun m => m.project_id == project_id)).head? with
  | some pilot, some drone, some mission =>
      let pilot_location := pilot.location.trim
      let drone_location := drone.location.trim
      let mission_location := mission.location.trim
      (if pilot_location != mission_location then
        [⟨"LOCATION_MISMATCH", "WARNING",
          "Pilot in " ++ pilot_location ++ ", mission in " ++ mission_location
            ++ " - requires travel coordination"⟩]
      else []) ++
      (if drone_location != mission_location then
        [⟨"LOCATION_MISMATCH", "WARNING",
          "Drone in " ++ drone_location ++ ", mission in " ++ mission_location
            ++ " - requires transport"⟩]
      else [])
  | _, _, _ => []

/-- Python truthiness of an optional string argument (`if pilot_id:`):
present and non-empty. -/
def truthy : Option String → Bool
  | none => false
  | some s => s != ""

/-- Embeds `detect_all_conflicts` from `lib/conflicts.py` (lines 11-39).
Each guard mirrors one `if` of the source, including that the
skill/certification check needs only `pilot_id` and `project_id`. -/
def detect_all_conflicts (pilot_id drone_id project_id : Option String)
    (pilots_df : Option (List Pilot)) (drones_df : Option (List Drone))
    (missions_df : Option (List Mission)) (now : Int) : List Finding :=
  (if truthy pilot_id && pilots_df.isSome then
    check_pilot_conflicts (pilot_id.getD "") (pilots_df.getD []) missions_df
   else []) ++
  (if truthy drone_id && drones_df.isSome then
    check_drone_conflicts (drone_id.getD "") (drones_df.getD []) now
   else []) ++
  (if truthy pilot_id && truthy project_id
      && (pilots_df.isSome && missions_df.isSome) then
    check_skill_mismatch (pilot_id.getD "") (project_id.getD "")
      (pilots_df.getD []) (missions_df.getD [])
   else []) ++
  (if truthy pilot_id && truthy drone_id && truthy project_id
      && (pilots_df.isSome && drones_df.isSome && missions_df.isSome) then
    check_location_mismatch (pilot_id.getD "") (drone_id.getD "")
      (project_id.getD "") (pilots_df.getD []) (drones_df.getD [])
      (missions_df.getD [])
   else [])

/-- Embeds `get_conflict_summary` from `lib/conflicts.py` (lines 239-268). -/
def get_conflict_summary (conflicts : List Finding) : String :=
  if conflicts.isEmpty then "✅ No conflicts detected"
  else
    let critical := conflicts.filter (fun c => c.severity == "CRITICAL")
    let high := conflicts.filter (fun c => c.severity == "HIGH")
    let warnings := conflicts.filter (fun c => c.severity == "WARNING")
    let summary_lines :=
      (if critical.isEmpty then []
       else ("🚫 **" ++ toString critical.length ++ " CRITICAL** issue(s):")
              :: critical.map (fun c => "   - " ++ c.message)) ++
      (if high.isEmpty then []
       else ("\n⚠️ **" ++ toString high.length ++ " HIGH** priority warning(s):")
              :: high.map (fun c => "   - " ++ c.message)) ++
      (if warnings.isEmpty then []
       else ("\nℹ️ **" ++ toString warnings.length ++ " WARNING**(s):")
              :: warnings.map (fun c => "   - " ++ c.message))
    String.intercalate "\n" summary_lines

/-- Embeds `can_proceed_with_assignment` from `lib/conflicts.py` (lines 271-276). -/
def can_proceed_with_assignment (conflicts : List Finding) : Bool :=
  !(conflicts.any (fun c => c.severity == "CRITICAL"))

end Conflicts

/-- The spreadsheet contents behind `lib/sheets.py`: one worksheet per
entity kind.  The Streamlit caches are modelled separately in
`CachedState` for the staleness claims. -/
structure SheetsState where
  pilots : List Pilot
  drones : List Drone
  missions : List Mission
deriving DecidableEq, Repr

namespace Sheets

/-- The two `sheet.update_cell` calls of `update_pilot_status`
(`lib/sheets.py` lines 172-173) applied to the first row whose id cell
matches, which is what `sheet.find(pilot_id)` locates. -/
def updateFirstPilot (ps : List Pilot) (pilot_id new_status assignment : String) :
    List Pilot :=
  match ps with
  | [] => []
  | p :: rest =>
      if p.pilot_id == pilot_id then
        { p with status := new_status, current_assignment := assignment } :: rest
      else
        p :: updateFirstPilot rest pilot_id new_status assignment

/-- The two `sheet.update_cell` calls of `update_drone_status`
(`lib/sheets.py` lines 213-214). -/
def updateFirstDrone (ds : List Drone) (drone_id new_status assignment : String) :
    List Drone :=
  match ds with
  | [] => []
  | d :: rest =>
      if d.drone_id == drone_id then
        { d with status := new_status, current_assignment := assignment } :: rest
      else
        d :: updateFirstDrone rest drone_id new_status assignment

/-- Embeds `update_pilot_status` from `lib/sheets.py` (lines 143-181): find the
pilot row, write status and assignment cells, report success; a missing
row writes nothing and reports failure. -/
def update_pilot_status (st : SheetsState)
    (pilot_id new_status assignment : String) : Bool × SheetsState :=
  if st.pilots.any (fun p => p.pilot_id == pilot_id) then
    (true, { st with pilots := updateFirstPilot st.pilots pilot_id new_status assignment })
  else
    (false, st)

/-- Embeds `update_drone_status` from `lib/sheets.py` (lines 184-222). -/
def update_drone_status (st : SheetsState)
    (drone_id new_status assignment : String) : Bool × SheetsState :=
  if st.drones.any (fun d => d.drone_id == drone_id) then
    (true, { st with drones := updateFirstDrone st.drones drone_id new_status assignment })
  else
    (false, st)

end Sheets

/-- The mutable module state of `lib/sheets.py` including the Streamlit
caches: `sheetPilots` is the worksheet, `cachedPilots` the
`@st.cache_data(ttl=60)` entry for `load_pilot_roster` (present while
the TTL has not expired), `clientCached` the `@st.cache_resource` entry
for `get_gspread_client`. -/
structure CachedState where
  sheetPilots : List Pilot
  cachedPilots : Option (List Pilot)
  clientCached : Bool
deriving DecidableEq, Repr

namespace Cached

/-- Embeds `load_pilot_roster` from `lib/sheets.py` (lines 41-68): served from
the `@st.cache_data` entry when present, otherwise read from the sheet
and cached (the read also caches the client). -/
def load_pilot_roster (st : CachedState) : List Pilot × CachedState :=
  match st.cachedPilots with
  | some cached => (cached, st)
  | none =>
      (st.sheetPilots,
       { st with cachedPilots := some st.sheetPilots, clientCached := true })

/-- Embeds `update_pilot_status` from `lib/sheets.py` (lines 143-181) at the
cache level: after the cell writes it runs `st.cache_resource.clear()`,
which empties only the client cache; the `@st.cache_data` snapshot
cache is left untouched. -/
def update_pilot_status (st : CachedState)
    (pilot_id new_status assignment : String) : Bool × CachedState :=
  if st.sheetPilots.any (fun p => p.pilot_id == pilot_id) then
    (true,
     { st with
        sheetPilots := Sheets.updateFirstPilot st.sheetPilots pilot_id new_status assignment,
        clientCached := false })
  else
    (false, st)

end Cached

namespace Tools

/-- Embeds `update_pilot_status` from `lib/tools.py` (lines 122-147): validate
the status, derive `assignment = "–" if new_status in [Available, On
Leave] else None`, then call the sheets write with `assignment or "–"`. -/
def update_pilot_status (st : SheetsState) (pilot_id new_status : String) :
    String × SheetsState :=
  if !(["Available", "Assigned", "On Leave"].contains new_status) then
    ("❌ Invalid status. Must be one of: Available, Assigned, On Leave", st)
  else
    let assignment : Option String :=
      if new_status == "Available" || new_status == "On Leave" then some "–" else none
    let result := Sheets.update_pilot_status st pilot_id new_status (assignment.getD "–")
    if result.1 then
      ("✅ Updated " ++ pilot_id ++ " status to \x27" ++ new_status
         ++ "\x27. Google Sheet synced.", result.2)
    else
      ("❌ Failed to update " ++ pilot_id ++ " status. Check if pilot exists.", result.2)

/-- Embeds `update_drone_status` from `lib/tools.py` (lines 150-174). -/
def update_drone_status (st : SheetsState) (drone_id new_status : String) :
    String × SheetsState :=
  if !(["Available", "Maintenance", "Assigned"].contains new_status) then
    ("❌ Invalid status. Must be one of: Available, Maintenance, Assigned", st)
  else
    let assignment : Option String :=
      if new_status == "Available" || new_status == "Maintenance" then some "–" else none
    let result := Sheets.update_drone_status st drone_id new_status (assignment.getD "–")
    if result.1 then
      ("✅ Updated " ++ drone_id ++ " status to \x27" ++ new_status
         ++ "\x27. Google Sheet synced.", result.2)
    else
      ("❌ Failed to update " ++ drone_id ++ " status. Check if drone exists.", result.2)

/-- Embeds `assign_to_mission` from `lib/tools.py` (lines 204-259): three
existence pre-checks, conflict detection, the `can_proceed` gate, then
the two paired writes. -/
def assign_to_mission (st : SheetsState) (pilot_id drone_id project_id : String)
    (now : Int) : String × SheetsState :=
  if (st.pilots.filter (fun p => p.pilot_id == pilot_id)).isEmpty then
    ("❌ Pilot " ++ pilot_id ++ " not found", st)
  else if (st.drones.filter (fun d => d.drone_id == drone_id)).isEmpty then
    ("❌ Drone " ++ drone_id ++ " not found", st)
  else if (st.missions.filter (fun m => m.project_id == project_id)).isEmpty then
    ("❌ Project " ++ project_id ++ " not found", st)
  else
    let conflicts := Conflicts.detect_all_conflicts
      (some pilot_id) (some drone_id) (some project_id)
      (some st.pilots) (some st.drones) (some st.missions) now
    if !(Conflicts.can_proceed_with_assignment conflicts) then
      ("❌ **Cannot assign due to CRITICAL conflicts:**\n\n"
         ++ Conflicts.get_conflict_summary conflicts, st)
    else
      let pilotResult := Sheets.update_pilot_status st pilot_id "Assigned" project_id
      let droneResult := Sheets.update_drone_status pilotResult.2 drone_id "Assigned" project_id
      if pilotResult.1 && droneResult.1 then
        ("✅ **Assignment successful!**\n\n"
           ++ "• Pilot " ++ pilot_id ++ " assigned to " ++ project_id ++ "\n"
           ++ "• Drone " ++ drone_id ++ " assigned to " ++ project_id ++ "\n"
           ++ "• Google Sheets updated\n"
           ++ (if conflicts.isEmpty then ""
               else "\n⚠️ **Warnings:**\n" ++ Conflicts.get_conflict_summary conflicts),
         droneResult.2)
      else
        ("❌ Assignment failed during Google Sheets update", droneResult.2)

/-- Embeds `urgent_reassign` from `lib/tools.py` (lines 262-312): a read-only
planning flow; the returned state is the input state because the source
performs no write call on any branch. -/
def urgent_reassign (st : SheetsState) (from_project to_project reason : String) :
    String × SheetsState :=
  let assigned_pilots := st.pilots.filter (fun p => p.current_assignment == from_project)
  let assigned_drones := st.drones.filter (fun d => d.current_assignment == from_project)
  if assigned_pilots.isEmpty && assigned_drones.isEmpty then
    ("❌ No resources currently assigned to " ++ from_project, st)
  else
    match (st.missions.filter (fun m => m.project_id == to_project)).head? with
    | none => ("❌ Project " ++ to_project ++ " not found", st)
    | some to_mission =>
        ("🚨 **URGENT REASSIGNMENT PLAN**\n\n"
           ++ "**From:** " ++ from_project ++ "\n"
           ++ "**To:** " ++ to_project ++ " (Priority: " ++ to_mission.priority ++ ")\n"
           ++ "**Reason:** " ++ reason ++ "\n\n"
           ++ "**Resources to reassign:**\n"
           ++ String.join (assigned_pilots.map
                (fun p => "• Pilot " ++ p.pilot_id ++ " (" ++ p.name ++ ")\n"))
           ++ String.join (assigned_drones.map
                (fun d => "• Drone " ++ d.drone_id ++ " (" ++ d.model ++ ")\n"))
           ++ "\n**Impact:**\n"
           ++ "• " ++ from_project ++ " will need replacement resources\n"
           ++ "• " ++ to_project ++ " can start immediately after reassignment\n\n"
           ++ "⚠️ **Note:** Execute assignment using \x60assign_to_mission\x60 to complete reassignment.",
         st)

end Tools

/-! Helper lemmas about the rule checks. -/

namespace Conflicts

theorem check_pilot_conflicts_found (pid : String) (pdf : List Pilot)
    (mdf : Option (List Mission)) (p : Pilot) (rest : List Pilot)
    (hf : pdf.filter (fun q => q.pilot_id == pid) = p :: rest) :
    check_pilot_conflicts pid pdf mdf =
      (if p.status == "Assigned" && p.current_assignment != "–" then
        [⟨"DOUBLE_BOOKING", "CRITICAL",
          "Pilot " ++ pid ++ " (" ++ p.name ++ ") already assigned to "
            ++ p.current_assignment⟩]
      else []) ++
      (if p.status == "On Leave" then
        [⟨"UNAVAILABLE", "CRITICAL",
          "Pilot " ++ pid ++ " is on leave until " ++ p.available_from⟩]
      else []) := by
  simp [check_pilot_conflicts, hf]

theorem check_drone_conflicts_found (did : String) (ddf : List Drone)
    (now : Int) (d : Drone) (rest : List Drone)
    (hf : ddf.filter (fun q => q.drone_id == did) = d :: rest) :
    check_drone_conflicts did ddf now =
      (if d.status == "Maintenance" then
        [⟨"MAINTENANCE_CONFLICT", "CRITICAL",
          "Drone " ++ did ++ " is currently in maintenance"⟩]
      else []) ++
      (match d.maintenance_due with
       | none => []
       | some due =>
          if 0 ≤ due - now ∧ due - now ≤ 7 then
            [⟨"MAINTENANCE_DUE", "WARNING",
              "Drone " ++ did ++ " maintenance due on day " ++ toString due
                ++ " (" ++ toString (due - now) ++ " days)"⟩]
          else []) ++
      (if d.status == "Assigned" && d.current_assignment != "–" then
        [⟨"DOUBLE_BOOKING", "CRITICAL",
          "Drone " ++ did ++ " already assigned to " ++ d.current_assignment⟩]
      else []) := by
  simp [check_drone_conflicts, hf]

theorem mem_check_pilot_conflicts_found {c : Finding} {pid : String}
    {pdf : List Pilot} {mdf : Option (List Mission)}
    (hne : (pdf.filter (fun q => q.pilot_id == pid)).isEmpty = false)
    (h : c ∈ check_pilot_conflicts pid pdf mdf) :
    c.type = "DOUBLE_BOOKING" ∨ c.type = "UNAVAILABLE" := by
  cases hf : pdf.filter (fun q => q.pilot_id == pid) with
  | nil => rw [hf] at hne; simp at hne
  | cons p rest =>
      rw [check_pilot_conflicts_found pid pdf mdf p rest hf] at h
      rcases List.mem_append.mp h with h1 | h1 <;> split at h1 <;>
        simp_all

theorem mem_check_drone_conflicts_found {c : Finding} {did : String}
    {ddf : List Drone} {now : Int}
    (hne : (ddf.filter (fun q => q.drone_id == did)).isEmpty = false)
    (h : c ∈ check_drone_conflicts did ddf now) :
    c.type = "MAINTENANCE_CONFLICT" ∨ c.type = "MAINTENANCE_DUE" ∨
      c.type = "DOUBLE_BOOKING" := by
  cases hf : ddf.filter (fun q => q.drone_id == did) with
  | nil => rw [hf] at hne; simp at hne
  | cons d rest =>
      rw [check_drone_conflicts_found did ddf now d rest hf] at h
      rcases List.mem_append.mp h with h1 | h1
      · rcases List.mem_append.mp h1 with h2 | h2
        · split at h2 <;> simp_all
        · split at h2 <;> (try split at h2) <;> simp_all
      · split at h1 <;> simp_all

theorem mem_check_skill_mismatch {c : Finding} {pid prj : String}
    {pdf : List Pilot} {mdf : List Mission}
    (h : c ∈ check_skill_mismatch pid prj pdf mdf) :
    c.type = "SKILL_MISMATCH" ∨ c.type = "CERTIFICATION_MISMATCH" := by
  unfold check_skill_mismatch at h
  split at h
  · rcases List.mem_append.mp h with h1 | h1 <;> split at h1 <;> simp_all
  · simp at h

theorem mem_check_location_mismatch {c : Finding} {pid did prj : String}
    {pdf : List Pilot} {ddf : List Drone} {mdf : List Mission}
    (h : c ∈ check_location_mismatch pid did prj pdf ddf mdf) :
    c.type = "LOCATION_MISMATCH" := by
  unfold check_location_mismatch at h
  split at h
  · rcases List.mem_append.mp h with h1 | h1 <;> split at h1 <;> simp_all
  · simp at h

theorem mem_detect_all_conflicts_cases {c : Finding}
    {pid did prj : Option String} {pdf : Option (List Pilot)}
    {ddf : Option (List Drone)} {mdf : Option (List Mission)} {now : Int}
    (h : c ∈ detect_all_conflicts pid did prj pdf ddf mdf now) :
    ((truthy pid && pdf.isSome) = true ∧
      c ∈ check_pilot_conflicts (pid.getD "") (pdf.getD []) mdf) ∨
    ((truthy did && ddf.isSome) = true ∧
      c ∈ check_drone_conflicts (did.getD "") (ddf.getD []) now) ∨
    ((truthy pid && truthy prj && (pdf.isSome && mdf.isSome)) = true ∧
      c ∈ check_skill_mismatch (pid.getD "") (prj.getD "")
            (pdf.getD []) (mdf.getD [])) ∨
    ((truthy pid && truthy did && truthy prj
        && (pdf.isSome && ddf.isSome && mdf.isSome)) = true ∧
      c ∈ check_location_mismatch (pid.getD "") (did.getD "") (prj.getD "")
            (pdf.getD []) (ddf.getD []) (mdf.getD [])) := by
  unfold detect_all_conflicts at h
  rcases List.mem_append.mp h with h1 | h1
  · rcases List.mem_append.mp h1 with h2 | h2
    · rcases List.mem_append.mp h2 with h3 | h3
      · left; split at h3 <;> simp_all
      · right; left; split at h3 <;> simp_all
    · right; right; left; split at h2 <;> simp_all
  · right; right; right; split at h1 <;> simp_all

end Conflicts

namespace Sheets

theorem updateFirstPilot_idem (ps : List Pilot) (pid s a : String) :
    updateFirstPilot (updateFirstPilot ps pid s a) pid s a
      = updateFirstPilot ps pid s a := by
  induction ps with
  | nil => rfl
  | cons p rest ih =>
      cases h : p.pilot_id == pid <;> simp [updateFirstPilot, h, ih]

theorem updateFirstDrone_idem (ds : List Drone) (did s a : String) :
    updateFirstDrone (updateFirstDrone ds did s a) did s a
      = updateFirstDrone ds did s a := by
  induction ds with
  | nil => rfl
  | cons d rest ih =>
      cases h : d.drone_id == did <;> simp [updateFirstDrone, h, ih]

theorem updateFirstPilot_any (ps : List Pilot) (pid s a : String) :
    (updateFirstPilot ps pid s a).any (fun p => p.pilot_id == pid)
      = ps.any (fun p => p.pilot_id == pid) := by
  induction ps with
  | nil => rfl
  | cons p rest ih =>
      cases h : p.pilot_id == pid <;> simp [updateFirstPilot, h, ih]

theorem updateFirstDrone_any (ds : List Drone) (did s a : String) :
    (updateFirstDrone ds did s a).any (fun d => d.drone_id == did)
      = ds.any (fun d => d.drone_id == did) := by
  induction ds with
  | nil => rfl
  | cons d rest ih =>
      cases h : d.drone_id == did <;> simp [updateFirstDrone, h, ih]

theorem update_pilot_status_idem (st : SheetsState) (pid s a : String) :
    (update_pilot_status (update_pilot_status st pid s a).2 pid s a).2
      = (update_pilot_status st pid s a).2 := by
  cases h : st.pilots.any (fun p => p.pilot_id == pid) with
  | false => simp [update_pilot_status, h]
  | true =>
      simp [update_pilot_status, h, updateFirstPilot_any, updateFirstPilot_idem]

theorem update_drone_status_idem (st : SheetsState) (did s a : String) :
    (update_drone_status (update_drone_status st did s a).2 did s a).2
      = (update_drone_status st did s a).2 := by
  cases h : st.drones.any (fun d => d.drone_id == did) with
  | false => simp [update_drone_status, h]
  | true =>
      simp [update_drone_status, h, updateFirstDrone_any, updateFirstDrone_idem]

end Sheets

namespace Tools

theorem update_pilot_status_state_eq (st : SheetsState) (pid s : String)
    (hs : s = "Available" ∨ s = "Assigned" ∨ s = "On Leave") :
    (update_pilot_status st pid s).2
      = (Sheets.update_pilot_status st pid s
          ((if s == "Available" || s == "On Leave" then
              some "–" else none).getD "–")).2 := by
  rcases hs with rfl | rfl | rfl <;>
    simp [update_pilot_status] <;>
    cases h : (Sheets.update_pilot_status st pid _ _).1 <;> simp [h]

theorem update_drone_status_state_eq (st : SheetsState) (did s : String)
    (hs : s = "Available" ∨ s = "Maintenance" ∨ s = "Assigned") :
    (update_drone_status st did s).2
      = (Sheets.update_drone_status st did s
          ((if s == "Available" || s == "Maintenance" then
              some "–" else none).getD "–")).2 := by
  rcases hs with rfl | rfl | rfl <;>
    simp [update_drone_status] <;>
    cases h : (Sheets.update_drone_status st did _ _).1 <;> simp [h]

end Tools

/-! Claim theorems. -/

/-- Claim C2: `can_proceed_with_assignment` returns false iff at least one
finding in the list has severity CRITICAL, for every finding list
including the empty one; hence lists with only HIGH or WARNING
severities never make it return false. -/
theorem can_proceed_false_iff_critical (conflicts : List Finding) :
    Conflicts.can_proceed_with_assignment conflicts = false ↔
      ∃ c ∈ conflicts, c.severity = "CRITICAL" := by
  simp [Conflicts.can_proceed_with_assignment]

/-- Claim C3: for the pilot row the check resolves an id to (the first roster
row whose id matches), and likewise for the drone row, the
double-booking check produces a finding of kind DOUBLE_BOOKING with
severity CRITICAL whose message ends in the existing assignment iff the
entity's status is `Assigned` and its `current_assignment` differs from
the sentinel. -/
theorem double_booking_iff
    (pid : String) (pdf : List Pilot) (mdf : Option (List Mission))
    (p : Pilot) (prest : List Pilot)
    (hp : pdf.filter (fun q => q.pilot_id == pid) = p :: prest)
    (did : String) (ddf : List Drone) (now : Int)
    (d : Drone) (drest : List Drone)
    (hd : ddf.filter (fun q => q.drone_id == did) = d :: drest) :
    ((∃ c ∈ Conflicts.check_pilot_conflicts pid pdf mdf,
        c.type = "DOUBLE_BOOKING" ∧ c.severity = "CRITICAL" ∧
          ∃ s, c.message = s ++ p.current_assignment) ↔
      (p.status = "Assigned" ∧ p.current_assignment ≠ "–")) ∧
    ((∃ c ∈ Conflicts.check_drone_conflicts did ddf now,
        c.type = "DOUBLE_BOOKING" ∧ c.severity = "CRITICAL" ∧
          ∃ s, c.message = s ++ d.current_assignment) ↔
      (d.status = "Assigned" ∧ d.current_assignment ≠ "–")) := by
  rw [Conflicts.check_pilot_conflicts_found pid pdf mdf p prest hp,
      Conflicts.check_drone_conflicts_found did ddf now d drest hd]
  constructor
  · constructor
    · rintro ⟨c, hc, hty, hsev, hmsg⟩
      rcases List.mem_append.mp hc with h1 | h1 <;> split at h1 <;> simp_all
    · rintro ⟨h1, h2⟩
      have hg : (p.status == "Assigned" && p.current_assignment != "–") = true := by
        simp [h1, h2]
      rw [if_pos hg]
      exact ⟨_, List.mem_append_left _ (List.mem_cons_self _ _), rfl, rfl, _, rfl⟩
  · constructor
    · rintro ⟨c, hc, hty, hsev, hmsg⟩
      rcases List.mem_append.mp hc with h1 | h1
      · rcases List.mem_append.mp h1 with h2 | h2
        · split at h2 <;> simp_all
        · cases hdue : d.maintenance_due with
          | none => rw [hdue] at h2; simp at h2
          | some due =>
              rw [hdue] at h2
              simp only [] at h2
              split at h2 <;> simp_all
      · split at h1 <;> simp_all
    · rintro ⟨h1, h2⟩
      have hg : (d.status == "Assigned" && d.current_assignment != "–") = true := by
        simp [h1, h2]
      rw [if_pos hg]
      exact ⟨_, List.mem_append_right _ (List.mem_cons_self _ _), rfl, rfl, _, rfl⟩

/-- Claim C3 witness: a pilot already assigned to M9 and a drone already
assigned to M8 each trigger the CRITICAL double-booking finding whose
message names the existing assignment. -/
theorem double_booking_iff_witness :
    (∃ c ∈ Conflicts.check_pilot_conflicts "P9"
        [⟨"P9", "Bo", [], [], "Bangalore", "Assigned", "M9", ""⟩] none,
      c.type = "DOUBLE_BOOKING" ∧ c.severity = "CRITICAL" ∧
        ∃ s, c.message = s ++ "M9") ∧
    (∃ c ∈ Conflicts.check_drone_conflicts "D9"
        [⟨"D9", "M350", [], "Assigned", "Bangalore", "M8", none⟩] 0,
      c.type = "DOUBLE_BOOKING" ∧ c.severity = "CRITICAL" ∧
        ∃ s, c.message = s ++ "M8") :=
  ⟨((double_booking_iff "P9" [⟨"P9", "Bo", [], [], "Bangalore", "Assigned", "M9", ""⟩]
      none ⟨"P9", "Bo", [], [], "Bangalore", "Assigned", "M9", ""⟩ [] (by decide)
      "D9" [⟨"D9", "M350", [], "Assigned", "Bangalore", "M8", none⟩] 0
      ⟨"D9", "M350", [], "Assigned", "Bangalore", "M8", none⟩ [] (by decide)).1).mpr
      ⟨rfl, by decide⟩,
   ((double_booking_iff "P9" [⟨"P9", "Bo", [], [], "Bangalore", "Assigned", "M9", ""⟩]
      none ⟨"P9", "Bo", [], [], "Bangalore", "Assigned", "M9", ""⟩ [] (by decide)
      "D9" [⟨"D9", "M350", [], "Assigned", "Bangalore", "M8", none⟩] 0
      ⟨"D9", "M350", [], "Assigned", "Bangalore", "M8", none⟩ [] (by decide)).2).mpr
      ⟨rfl, by decide⟩⟩

/-- Claim C7: for the drone row the check resolves, a {MAINTENANCE_DUE,
WARNING} finding is produced iff the `maintenance_due` field parses to
a valid date (`some due` in the embedding) and the day difference to
now lies between 0 and 7 inclusive; a missing or unparseable date
(`none`, the swallowed-exception path of the source) yields no finding
and no error, the check being a total function. -/
theorem maintenance_due_iff
    (did : String) (ddf : List Drone) (now : Int)
    (d : Drone) (drest : List Drone)
    (hd : ddf.filter (fun q => q.drone_id == did) = d :: drest) :
    (∃ c ∈ Conflicts.check_drone_conflicts did ddf now,
        c.type = "MAINTENANCE_DUE" ∧ c.severity = "WARNING") ↔
      (∃ due, d.maintenance_due = some due ∧ 0 ≤ due - now ∧ due - now ≤ 7) := by
  rw [Conflicts.check_drone_conflicts_found did ddf now d drest hd]
  constructor
  · rintro ⟨c, hc, hty, hsev⟩
    rcases List.mem_append.mp hc with h1 | h1
    · rcases List.mem_append.mp h1 with h2 | h2
      · split at h2 <;> simp_all
      · cases hdue : d.maintenance_due with
        | none => rw [hdue] at h2; simp at h2
        | some due =>
            rw [hdue] at h2
            simp only [] at h2
            split at h2
            · rename_i hw
              exact ⟨due, rfl, hw.1, hw.2⟩
            · simp at h2
    · split at h1 <;> simp_all
  · rintro ⟨due, hdue, hw1, hw2⟩
    rw [hdue]
    simp only []
    rw [if_pos (show (0 : Int) ≤ due - now ∧ due - now ≤ 7 from ⟨hw1, hw2⟩)]
    refine ⟨_, List.mem_append_left _ (List.mem_append_right _
      (List.mem_cons_self _ _)), ?_, ?_⟩ <;> rfl

/-- Claim C7 witness: a drone whose maintenance is due three days from now
fires the warning; the theorem is applied with the window condition
discharged concretely. -/
theorem maintenance_due_iff_witness :
    ∃ c ∈ Conflicts.check_drone_conflicts "D2"
        [⟨"D2", "M350", [], "Available", "Bangalore", "–", some 3⟩] 0,
      c.type = "MAINTENANCE_DUE" ∧ c.severity = "WARNING" :=
  (maintenance_due_iff "D2" [⟨"D2", "M350", [], "Available", "Bangalore", "–", some 3⟩]
      0 ⟨"D2", "M350", [], "Available", "Bangalore", "–", some 3⟩ [] (by decide)).mpr
    ⟨3, rfl, by decide, by decide⟩

namespace Conflicts

theorem mem_check_pilot_conflicts_type {c : Finding} {pid : String}
    {pdf : List Pilot} {mdf : Option (List Mission)}
    (h : c ∈ check_pilot_conflicts pid pdf mdf) :
    c.type = "NOT_FOUND" ∨ c.type = "DOUBLE_BOOKING" ∨
      c.type = "UNAVAILABLE" := by
  unfold check_pilot_conflicts at h
  split at h
  · simp_all
  · rcases List.mem_append.mp h with h1 | h1 <;> split at h1 <;> simp_all

theorem mem_check_drone_conflicts_type {c : Finding} {did : String}
    {ddf : List Drone} {now : Int}
    (h : c ∈ check_drone_conflicts did ddf now) :
    c.type = "NOT_FOUND" ∨ c.type = "MAINTENANCE_CONFLICT" ∨
      c.type = "MAINTENANCE_DUE" ∨ c.type = "DOUBLE_BOOKING" := by
  unfold check_drone_conflicts at h
  split at h
  · simp_all
  · rcases List.mem_append.mp h with h1 | h1
    · rcases List.mem_append.mp h1 with h2 | h2
      · split at h2 <;> simp_all
      · split at h2 <;> (try split at h2) <;> simp_all
    · split at h1 <;> simp_all

end Conflicts

/-- Claim C10: when the pilot, drone and mission ids are each present in
their snapshots (the filters behind the three existence pre-checks of
`assign_to_mission` are non-empty), the conflict list computed by
`detect_all_conflicts` never contains a NOT_FOUND finding: those
branches of the pilot and drone checks are unreachable for those ids. -/
theorem detect_no_not_found (pid did prj : String)
    (pilots : List Pilot) (drones : List Drone) (missions : List Mission)
    (now : Int)
    (hp : (pilots.filter (fun p => p.pilot_id == pid)).isEmpty = false)
    (hd : (drones.filter (fun d => d.drone_id == did)).isEmpty = false)
    (hm : (missions.filter (fun m => m.project_id == prj)).isEmpty = false) :
    ∀ c ∈ Conflicts.detect_all_conflicts (some pid) (some did) (some prj)
        (some pilots) (some drones) (some missions) now,
      c.type ≠ "NOT_FOUND" := by
  intro c hc
  rcases Conflicts.mem_detect_all_conflicts_cases hc with
    ⟨-, h⟩ | ⟨-, h⟩ | ⟨-, h⟩ | ⟨-, h⟩
  · rcases Conflicts.mem_check_pilot_conflicts_found hp h with h1 | h1 <;>
      simp [h1]
  · rcases Conflicts.mem_check_drone_conflicts_found hd h with h1 | h1 | h1 <;>
      simp [h1]
  · rcases Conflicts.mem_check_skill_mismatch h with h1 | h1 <;> simp [h1]
  · simp [Conflicts.mem_check_location_mismatch h]

/-- Claim C10 witness: a present pilot, drone and mission produce a conflict
list free of NOT_FOUND findings. -/
theorem detect_no_not_found_witness :
    (([(⟨"P1", "Asha", [], [], "Bangalore", "Available", "–", ""⟩ : Pilot)].filter
        (fun p => p.pilot_id == "P1")).isEmpty = false) ∧
    (([(⟨"D1", "M350", [], "Available", "Bangalore", "–", none⟩ : Drone)].filter
        (fun d => d.drone_id == "D1")).isEmpty = false) ∧
    (([(⟨"PRJ1", "Bangalore", [], [], "High", "Acme"⟩ : Mission)].filter
        (fun m => m.project_id == "PRJ1")).isEmpty = false) ∧
    (∀ c ∈ Conflicts.detect_all_conflicts (some "P1") (some "D1") (some "PRJ1")
        (some [⟨"P1", "Asha", [], [], "Bangalore", "Available", "–", ""⟩])
        (some [⟨"D1", "M350", [], "Available", "Bangalore", "–", none⟩])
        (some [⟨"PRJ1", "Bangalore", [], [], "High", "Acme"⟩]) 0,
      c.type ≠ "NOT_FOUND") :=
  ⟨by decide, by decide, by decide,
   detect_no_not_found "P1" "D1" "PRJ1"
     [⟨"P1", "Asha", [], [], "Bangalore", "Available", "–", ""⟩]
     [⟨"D1", "M350", [], "Available", "Bangalore", "–", none⟩]
     [⟨"PRJ1", "Bangalore", [], [], "High", "Acme"⟩] 0
     (by decide) (by decide) (by decide)⟩

/-- Claim C1: when the three existence pre-checks pass and the computed
conflict list contains at least one CRITICAL finding,
`assign_to_mission` returns the blocked report and the sheet state is
returned unchanged: zero write operations, no pilot row and no drone
row modified. -/
theorem assign_to_mission_blocked (st : SheetsState) (pid did prj : String)
    (now : Int)
    (hp : (st.pilots.filter (fun p => p.pilot_id == pid)).isEmpty = false)
    (hd : (st.drones.filter (fun d => d.drone_id == did)).isEmpty = false)
    (hm : (st.missions.filter (fun m => m.project_id == prj)).isEmpty = false)
    (hc : (Conflicts.detect_all_conflicts (some pid) (some did) (some prj)
        (some st.pilots) (some st.drones) (some st.missions) now).any
        (fun c => c.severity == "CRITICAL") = true) :
    Tools.assign_to_mission st pid did prj now =
      ("❌ **Cannot assign due to CRITICAL conflicts:**\n\n"
         ++ Conflicts.get_conflict_summary
             (Conflicts.detect_all_conflicts (some pid) (some did) (some prj)
               (some st.pilots) (some st.drones) (some st.missions) now),
       st) := by
  simp [Tools.assign_to_mission, hp, hd, hm,
    Conflicts.can_proceed_with_assignment, hc]

/-- Claim C1 witness: a pilot on leave makes the conflict list CRITICAL, and
the assignment aborts leaving the snapshot untouched. -/
theorem assign_to_mission_blocked_witness :
    (((⟨[⟨"P2", "Bo", [], [], "Bangalore", "On Leave", "–", "2025-01-01"⟩],
        [⟨"D1", "M350", [], "Available", "Bangalore", "–", none⟩],
        [⟨"PRJ2", "Bangalore", [], [], "High", "Acme"⟩]⟩ : SheetsState).pilots.filter
          (fun p => p.pilot_id == "P2")).isEmpty = false) ∧
    ((Conflicts.detect_all_conflicts (some "P2") (some "D1") (some "PRJ2")
        (some [⟨"P2", "Bo", [], [], "Bangalore", "On Leave", "–", "2025-01-01"⟩])
        (some [⟨"D1", "M350", [], "Available", "Bangalore", "–", none⟩])
        (some [⟨"PRJ2", "Bangalore", [], [], "High", "Acme"⟩]) 0).any
        (fun c => c.severity == "CRITICAL") = true) ∧
    Tools.assign_to_mission
        ⟨[⟨"P2", "Bo", [], [], "Bangalore", "On Leave", "–", "2025-01-01"⟩],
         [⟨"D1", "M350", [], "Available", "Bangalore", "–", none⟩],
         [⟨"PRJ2", "Bangalore", [], [], "High", "Acme"⟩]⟩ "P2" "D1" "PRJ2" 0 =
      ("❌ **Cannot assign due to CRITICAL conflicts:**\n\n"
         ++ Conflicts.get_conflict_summary
             (Conflicts.detect_all_conflicts (some "P2") (some "D1") (some "PRJ2")
               (some [⟨"P2", "Bo", [], [], "Bangalore", "On Leave", "–", "2025-01-01"⟩])
               (some [⟨"D1", "M350", [], "Available", "Bangalore", "–", none⟩])
               (some [⟨"PRJ2", "Bangalore", [], [], "High", "Acme"⟩]) 0),
       ⟨[⟨"P2", "Bo", [], [], "Bangalore", "On Leave", "–", "2025-01-01"⟩],
        [⟨"D1", "M350", [], "Available", "Bangalore", "–", none⟩],
        [⟨"PRJ2", "Bangalore", [], [], "High", "Acme"⟩]⟩) :=
  ⟨by decide, by decide,
   assign_to_mission_blocked
     ⟨[⟨"P2", "Bo", [], [], "Bangalore", "On Leave", "–", "2025-01-01"⟩],
      [⟨"D1", "M350", [], "Available", "Bangalore", "–", none⟩],
      [⟨"PRJ2", "Bangalore", [], [], "High", "Acme"⟩]⟩ "P2" "D1" "PRJ2" 0
     (by decide) (by decide) (by decide) (by decide)⟩

/-- Claim C5 counterexample: with `drone_id` absent from the call, the skill
check still runs and contributes a SKILL_MISMATCH finding for a pilot
who lacks a required skill, so the cross-entity skill check does not
need the full id triple. -/
theorem skill_check_runs_without_drone_id :
    ∃ c ∈ Conflicts.detect_all_conflicts (some "P1") none (some "PRJ1")
        (some [⟨"P1", "Asha", ["Mapping"], [], "Bangalore", "Available", "–", ""⟩])
        (some []) (some [⟨"PRJ1", "Bangalore", ["Thermal"], [], "High", "Acme"⟩]) 0,
      c.type = "SKILL_MISMATCH" := by decide

/-- Claim C5 amended: the location-mismatch check contributes findings only
when all three ids are present in the call, while the skill-mismatch
and certification-mismatch checks need only pilotId and missionId:
whenever one of those two is absent they contribute nothing, but an
absent droneId does not disable them. -/
theorem detect_all_conflicts_gating (pid did prj : Option String)
    (pdf : Option (List Pilot)) (ddf : Option (List Drone))
    (mdf : Option (List Mission)) (now : Int) :
    ((Conflicts.truthy pid = false ∨ Conflicts.truthy prj = false) →
      ∀ c ∈ Conflicts.detect_all_conflicts pid did prj pdf ddf mdf now,
        c.type ≠ "SKILL_MISMATCH" ∧ c.type ≠ "CERTIFICATION_MISMATCH") ∧
    ((Conflicts.truthy pid = false ∨ Conflicts.truthy did = false ∨
        Conflicts.truthy prj = false) →
      ∀ c ∈ Conflicts.detect_all_conflicts pid did prj pdf ddf mdf now,
        c.type ≠ "LOCATION_MISMATCH") := by
  constructor
  · intro h c hc
    rcases Conflicts.mem_detect_all_conflicts_cases hc with
      ⟨-, h1⟩ | ⟨-, h1⟩ | ⟨hg, h1⟩ | ⟨-, h1⟩
    · rcases Conflicts.mem_check_pilot_conflicts_type h1 with h2 | h2 | h2 <;>
        simp [h2]
    · rcases Conflicts.mem_check_drone_conflicts_type h1 with h2 | h2 | h2 | h2 <;>
        simp [h2]
    · simp only [Bool.and_eq_true] at hg
      rcases h with h | h
      · rw [h] at hg; simp at hg
      · rw [h] at hg; simp at hg
    · simp [Conflicts.mem_check_location_mismatch h1]
  · intro h c hc
    rcases Conflicts.mem_detect_all_conflicts_cases hc with
      ⟨-, h1⟩ | ⟨-, h1⟩ | ⟨-, h1⟩ | ⟨hg, h1⟩
    · rcases Conflicts.mem_check_pilot_conflicts_type h1 with h2 | h2 | h2 <;>
        simp [h2]
    · rcases Conflicts.mem_check_drone_conflicts_type h1 with h2 | h2 | h2 | h2 <;>
        simp [h2]
    · rcases Conflicts.mem_check_skill_mismatch h1 with h2 | h2 <;> simp [h2]
    · simp only [Bool.and_eq_true] at hg
      rcases h with h | h | h <;> rw [h] at hg <;> simp at hg

/-- Claim C5 witness for the amended gating: with pilotId absent neither a
skill/certification nor a location finding appears. -/
theorem detect_all_conflicts_gating_witness :
    (Conflicts.truthy none = false ∨ Conflicts.truthy (some "PRJ1") = false) ∧
    (∀ c ∈ Conflicts.detect_all_conflicts none (some "D1") (some "PRJ1")
        (some []) (some [⟨"D1", "M350", [], "Available", "Bangalore", "–", none⟩])
        (some [⟨"PRJ1", "Bangalore", [], [], "High", "Acme"⟩]) 0,
      c.type ≠ "SKILL_MISMATCH" ∧ c.type ≠ "CERTIFICATION_MISMATCH") ∧
    (∀ c ∈ Conflicts.detect_all_conflicts none (some "D1") (some "PRJ1")
        (some []) (some [⟨"D1", "M350", [], "Available", "Bangalore", "–", none⟩])
        (some [⟨"PRJ1", "Bangalore", [], [], "High", "Acme"⟩]) 0,
      c.type ≠ "LOCATION_MISMATCH") :=
  ⟨Or.inl rfl,
   (detect_all_conflicts_gating none (some "D1") (some "PRJ1")
      (some []) (some [⟨"D1", "M350", [], "Available", "Bangalore", "–", none⟩])
      (some [⟨"PRJ1", "Bangalore", [], [], "High", "Acme"⟩]) 0).1 (Or.inl rfl),
   (detect_all_conflicts_gating none (some "D1") (some "PRJ1")
      (some []) (some [⟨"D1", "M350", [], "Available", "Bangalore", "–", none⟩])
      (some [⟨"PRJ1", "Bangalore", [], [], "High", "Acme"⟩]) 0).2 (Or.inl rfl)⟩

/-- Claim C8: calling the status-update tool twice with the same entity id
and the same valid status yields the same final sheet state (hence the
same status and current_assignment fields) as calling it once, for
pilots and for drones. -/
theorem setStatus_idempotent (st : SheetsState) (pid did s t : String)
    (hs : s = "Available" ∨ s = "Assigned" ∨ s = "On Leave")
    (ht : t = "Available" ∨ t = "Maintenance" ∨ t = "Assigned") :
    (Tools.update_pilot_status (Tools.update_pilot_status st pid s).2 pid s).2
      = (Tools.update_pilot_status st pid s).2 ∧
    (Tools.update_drone_status (Tools.update_drone_status st did t).2 did t).2
      = (Tools.update_drone_status st did t).2 := by
  constructor
  · rw [Tools.update_pilot_status_state_eq (Tools.update_pilot_status st pid s).2 pid s hs,
        Tools.update_pilot_status_state_eq st pid s hs]
    exact Sheets.update_pilot_status_idem st pid s _
  · rw [Tools.update_drone_status_state_eq (Tools.update_drone_status st did t).2 did t ht,
        Tools.update_drone_status_state_eq st did t ht]
    exact Sheets.update_drone_status_idem st did t _

/-- Claim C8 witness: repeating the update to Assigned for a concrete pilot
and to Maintenance for a concrete drone changes nothing the second
time. -/
theorem setStatus_idempotent_witness :
    (("Assigned" = "Available" ∨ "Assigned" = "Assigned" ∨ "Assigned" = "On Leave") ∧
     ("Maintenance" = "Available" ∨ "Maintenance" = "Maintenance" ∨
        "Maintenance" = "Assigned")) ∧
    ((Tools.update_pilot_status
        (Tools.update_pilot_status
          ⟨[⟨"P1", "Asha", [], [], "Bangalore", "Available", "–", ""⟩],
           [⟨"D1", "M350", [], "Available", "Bangalore", "–", none⟩], []⟩
          "P1" "Assigned").2 "P1" "Assigned").2
      = (Tools.update_pilot_status
          ⟨[⟨"P1", "Asha", [], [], "Bangalore", "Available", "–", ""⟩],
           [⟨"D1", "M350", [], "Available", "Bangalore", "–", none⟩], []⟩
          "P1" "Assigned").2 ∧
     (Tools.update_drone_status
        (Tools.update_drone_status
          ⟨[⟨"P1", "Asha", [], [], "Bangalore", "Available", "–", ""⟩],
           [⟨"D1", "M350", [], "Available", "Bangalore", "–", none⟩], []⟩
          "D1" "Maintenance").2 "D1" "Maintenance").2
      = (Tools.update_drone_status
          ⟨[⟨"P1", "Asha", [], [], "Bangalore", "Available", "–", ""⟩],
           [⟨"D1", "M350", [], "Available", "Bangalore", "–", none⟩], []⟩
          "D1" "Maintenance").2) :=
  ⟨⟨Or.inr (Or.inl rfl), Or.inr (Or.inl rfl)⟩,
   setStatus_idempotent
     ⟨[⟨"P1", "Asha", [], [], "Bangalore", "Available", "–", ""⟩],
      [⟨"D1", "M350", [], "Available", "Bangalore", "–", none⟩], []⟩
     "P1" "D1" "Assigned" "Maintenance"
     (Or.inr (Or.inl rfl)) (Or.inr (Or.inl rfl))⟩

/-- Claim C9: `urgent_reassign` never mutates entity state (the returned
state is the input state on every branch); when no pilot and no drone
has `current_assignment` equal to the source mission it returns the
"no resources" failure with no plan, and when resources exist but the
destination mission id is absent from the mission snapshot it returns
the "project not found" failure. -/
theorem urgent_reassign_spec (st : SheetsState) (f t r : String) :
    (Tools.urgent_reassign st f t r).2 = st ∧
    ((st.pilots.filter (fun p => p.current_assignment == f)).isEmpty = true →
     (st.drones.filter (fun d => d.current_assignment == f)).isEmpty = true →
      (Tools.urgent_reassign st f t r).1
        = "❌ No resources currently assigned to " ++ f) ∧
    (((st.pilots.filter (fun p => p.current_assignment == f)).isEmpty
        && (st.drones.filter (fun d => d.current_assignment == f)).isEmpty) = false →
     (st.missions.filter (fun m => m.project_id == t)).isEmpty = true →
      (Tools.urgent_reassign st f t r).1 = "❌ Project " ++ t ++ " not found") := by
  refine ⟨?_, ?_, ?_⟩
  · simp only [Tools.urgent_reassign]
    split
    · rfl
    · split <;> rfl
  · intro h1 h2
    simp [Tools.urgent_reassign, h1, h2]
  · intro h1 h2
    have hnone : (st.missions.filter (fun m => m.project_id == t)).head? = none := by
      cases hmm : st.missions.filter (fun m => m.project_id == t) with
      | nil => rfl
      | cons a l => rw [hmm] at h2; simp at h2
    simp [Tools.urgent_reassign, h1, hnone]

/-- Claim C9 witness: scenario E — nothing assigned to M1 yields the failure
result with the state unchanged, and with a pilot assigned to M1 but a
missing destination project the project-not-found failure fires. -/
theorem urgent_reassign_spec_witness :
    ((Tools.urgent_reassign ⟨[], [], []⟩ "M1" "M5" "rush order").2
        = (⟨[], [], []⟩ : SheetsState)) ∧
    ((Tools.urgent_reassign ⟨[], [], []⟩ "M1" "M5" "rush order").1
        = "❌ No resources currently assigned to " ++ "M1") ∧
    ((Tools.urgent_reassign
        ⟨[⟨"P1", "Asha", [], [], "Bangalore", "Assigned", "M1", ""⟩], [], []⟩
        "M1" "M5" "go").1 = "❌ Project " ++ "M5" ++ " not found") :=
  ⟨(urgent_reassign_spec ⟨[], [], []⟩ "M1" "M5" "rush order").1,
   (urgent_reassign_spec ⟨[], [], []⟩ "M1" "M5" "rush order").2.1
     (by decide) (by decide),
   (urgent_reassign_spec
      ⟨[⟨"P1", "Asha", [], [], "Bangalore", "Assigned", "M1", ""⟩], [], []⟩
      "M1" "M5" "go").2.2 (by decide) (by decide)⟩

/-- Claim C4 evidence: the status-update tool takes no mission id,
and for `Assigned` its `assignment or "–"` fallback writes the
sentinel: setting a pilot or drone to Assigned stores "–" as
`current_assignment` instead of a caller-supplied mission id, while the
Available case clears to the sentinel as specified. -/
theorem assigned_status_writes_sentinel :
    (Tools.update_pilot_status
        ⟨[⟨"P001", "Asha", [], [], "Bangalore", "Available", "–", ""⟩], [], []⟩
        "P001" "Assigned").2.pilots
      = [⟨"P001", "Asha", [], [], "Bangalore", "Assigned", "–", ""⟩] ∧
    (Tools.update_drone_status
        ⟨[], [⟨"D001", "M350", [], "Available", "Bangalore", "–", none⟩], []⟩
        "D001" "Assigned").2.drones
      = [⟨"D001", "M350", [], "Assigned", "Bangalore", "–", none⟩] := by decide

/-- Claim C6 evidence: a successful pilot write mutates the sheet
but clears only the `st.cache_resource` client cache; the
`@st.cache_data` snapshot cache survives, so the next
`load_pilot_roster` within the TTL still returns the pre-write row
(status Available) instead of the written one (status Assigned). -/
theorem stale_cache_read_after_write :
    (Cached.update_pilot_status
        ⟨[⟨"P001", "Asha", [], [], "Bangalore", "Available", "–", ""⟩],
         some [⟨"P001", "Asha", [], [], "Bangalore", "Available", "–", ""⟩], true⟩
        "P001" "Assigned" "PRJ001").1 = true ∧
    (Cached.update_pilot_status
        ⟨[⟨"P001", "Asha", [], [], "Bangalore", "Available", "–", ""⟩],
         some [⟨"P001", "Asha", [], [], "Bangalore", "Available", "–", ""⟩], true⟩
        "P001" "Assigned" "PRJ001").2.sheetPilots
      = [⟨"P001", "Asha", [], [], "Bangalore", "Assigned", "PRJ001", ""⟩] ∧
    (Cached.load_pilot_roster
        (Cached.update_pilot_status
          ⟨[⟨"P001", "Asha", [], [], "Bangalore", "Available", "–", ""⟩],
           some [⟨"P001", "Asha", [], [], "Bangalore", "Available", "–", ""⟩], true⟩
          "P001" "Assigned" "PRJ001").2).1
      = [⟨"P001", "Asha", [], [], "Bangalore", "Available", "–", ""⟩] := by decide
